import Mathlib

/-!
Verification of the strategy-signal and risk-evaluation engine of a crypto
trading application.  The TypeScript sources (`MomentumTradingBot`,
`DCATradingBot`, `SmartStakingBot`, `CCIMarketBot` in
`src/algorithms/SmartStakingBot.ts` and `src/algorithms/DCATradingBot.ts`,
`RiskManager` and `AlgorithmTester` in the remaining modules) are shallowly
embedded below.  Numbers are modelled as rationals; wall-clock milliseconds as
integers passed explicitly (`now`).  The strategy evaluators never hit a
division by zero on the inputs the theorems use, so they are embedded over
plain rationals; the `RiskManager`, whose behaviour on the claims depends on
IEEE `NaN`/`Infinity` propagation, is embedded over an explicit extended
number type `JRat` mirroring JavaScript number semantics.  `Math.sqrt` (whose
exact value is irrational) is threaded as an abstract function parameter; no
theorem depends on its values.
-/

/-- Market observation fed to every evaluator (`MarketData` in the source).
The optional `marketCap` field is never read by the embedded code and is
omitted. -/
structure MarketData where
  symbol : String
  price : ℚ
  volume : ℚ
  timestamp : ℤ
  change24h : ℚ
  change1h : ℚ
  high24h : ℚ
  low24h : ℚ
deriving Repr, DecidableEq

/-- The BUY / SELL / HOLD tag of `TradingSignal.action`. -/
inductive TradeAction where
  | buy
  | sell
  | hold
deriving Repr, DecidableEq

/-- The LOW / MEDIUM / HIGH risk tags (also used for liquidity tiers,
which use the same three levels in the source). -/
inductive RiskRating where
  | low
  | medium
  | high
deriving Repr, DecidableEq

/-- Embeds `TradingSignal` as produced by every strategy evaluator.  `quantity` is
optional in the source (`quantity?: number`).  The human-readable `reason`
strings are embedded as fixed texts (the source interpolates numbers into
them; the claims never mention `reason`). -/
structure TradingSignal where
  action : TradeAction
  symbol : String
  confidence : ℚ
  price : ℚ
  quantity : Option ℚ
  reason : String
  timestamp : ℤ
  riskLevel : RiskRating
deriving Repr, DecidableEq

/-- The CONSERVATIVE / MODERATE / AGGRESSIVE risk profile. -/
inductive RiskProfile where
  | conservative
  | moderate
  | aggressive
deriving Repr, DecidableEq

/-- Embeds `BotConfig` from the source.  `maxPositions` is a natural number (the
source uses it both as a divisor and as a slice length); `takeProfit` is
optional.  `type`, `timeframe` and `customParams` are never read by the
embedded functions and are omitted. -/
structure BotConfig where
  id : String
  name : String
  allocation : ℚ
  stopLoss : ℚ
  takeProfit : Option ℚ
  maxPositions : ℕ
  riskLevel : RiskProfile
  enabledAssets : List String
deriving Repr, DecidableEq

/-- JavaScript truthiness of an optional number: `undefined` and `0` are
falsy (used for `if (this.config.takeProfit)` and `opp.maxStake || x`). -/
def truthyQ (o : Option ℚ) : Bool :=
  match o with
  | none => false
  | some x => decide (x ≠ 0)

/-- Association-list model of a JavaScript `Map` with string keys:
`set` overwrites in place, `delete` removes the key, iteration follows
insertion order. -/
def SMap (α : Type) : Type := List (String × α)

/-- The empty map. -/
def SMap.empty {α : Type} : SMap α := ([] : List (String × α))

/-- Embeds `Map.get` (first binding of the key). -/
def SMap.lookup {α : Type} : SMap α → String → Option α
  | [], _ => none
  | (k, v) :: rest, key => if k = key then some v else SMap.lookup rest key

/-- Embeds `Map.set`: replace in place, or append a new binding. -/
def SMap.set {α : Type} : SMap α → String → α → SMap α
  | [], key, v => [(key, v)]
  | (k, w) :: rest, key, v =>
      if k = key then (k, v) :: rest else (k, w) :: SMap.set rest key v

/-- Embeds `Map.delete`. -/
def SMap.erase {α : Type} : SMap α → String → SMap α
  | [], _ => []
  | (k, v) :: rest, key =>
      if k = key then SMap.erase rest key else (k, v) :: SMap.erase rest key

/-- The bindings of the map, in iteration order (`Map.forEach`). -/
def SMap.entries {α : Type} (m : SMap α) : List (String × α) := m

/-- JavaScript `array.slice(-n)`: the last `n` elements (the whole array when
it is shorter than `n`). -/
def takeLast {α : Type} (n : ℕ) (l : List α) : List α := l.drop (l.length - n)

/-- Price of the first element (`arr[0].price`; the callers guarantee
non-emptiness, the default is never reached on their inputs). -/
def firstPrice (l : List MarketData) : ℚ := ((l.head?).map (·.price)).getD 0

/-- Price of the last element (`arr[arr.length - 1].price`). -/
def lastPrice (l : List MarketData) : ℚ := ((l.getLast?).map (·.price)).getD 0

-- ===========================================================================
-- MomentumTradingBot (src/algorithms/SmartStakingBot.ts, third section)
-- ===========================================================================

/-- Momentum `Position`. -/
structure Position where
  symbol : String
  quantity : ℚ
  entryPrice : ℚ
  currentPrice : ℚ
  pnl : ℚ
  pnlPercentage : ℚ
  timestamp : ℤ
deriving Repr, DecidableEq

/-- Mutable state of a `MomentumTradingBot` instance (per-symbol price
history, position map, last rebalance time in ms). -/
structure MomState where
  priceHistory : SMap (List MarketData)
  positions : SMap Position
  lastRebalance : ℤ

/-- Embeds `calculateVolumeTrend`: latest volume of the last 4 observations versus
their average. -/
def calculateVolumeTrend (history : List MarketData) : ℚ :=
  if history.length < 4 then 0 else
    let recent := takeLast 4 history
    let volumes := recent.map (·.volume)
    let avgVolume := volumes.sum / (volumes.length : ℚ)
    let latestVolume := (volumes.getLast?).getD 0
    (latestVolume - avgVolume) / avgVolume

/-- Embeds `calculateShortTermMomentum`: percentage change over the last 4
observations, scaled by the volume trend. -/
def calculateShortTermMomentum (history : List MarketData) : ℚ :=
  if history.length < 4 then 0 else
    let recent := takeLast 4 history
    let priceChange := (lastPrice recent - firstPrice recent) / firstPrice recent
    priceChange * 100 * (1 + calculateVolumeTrend recent)

/-- Embeds `calculateTrendConsistency`: fraction of up-ticks over the last 10
observations. -/
def calculateTrendConsistency (history : List MarketData) : ℚ :=
  if history.length < 10 then 0 else
    let recent := takeLast 10 history
    let positiveChanges :=
      ((recent.zip recent.tail).countP (fun p => decide (p.1.price < p.2.price)) : ℚ)
    positiveChanges / ((recent.length : ℚ) - 1)

/-- Embeds `calculateMediumTermMomentum`: percentage change over the last 24
observations, scaled by trend consistency. -/
def calculateMediumTermMomentum (history : List MarketData) : ℚ :=
  if history.length < 24 then 0 else
    let recent := takeLast 24 history
    let priceChange := (lastPrice recent - firstPrice recent) / firstPrice recent
    priceChange * 100 * calculateTrendConsistency recent

/-- Embeds `calculateVolumeWeightedMomentum`: volume-weighted average of the last
period-over-period returns, in percent. -/
def calculateVolumeWeightedMomentum (history : List MarketData) : ℚ :=
  if history.length < 10 then 0 else
    let recent := takeLast 10 history
    let pairs := recent.zip recent.tail
    let weightedPriceChange :=
      (pairs.map (fun p => (p.2.price - p.1.price) / p.1.price * p.2.volume)).sum
    let totalVolume := (pairs.map (fun p => p.2.volume)).sum
    if 0 < totalVolume then weightedPriceChange / totalVolume * 100 else 0

/-- Embeds `calculateVolatility`: standard deviation of the period returns.  The
square root is the abstract `sq` parameter (see the module comment). -/
def calculateVolatility (sq : ℚ → ℚ) (history : List MarketData) : ℚ :=
  if history.length < 10 then 0 else
    let prices := history.map (·.price)
    let returns := (prices.zip prices.tail).map (fun p => (p.2 - p.1) / p.1)
    let mean := returns.sum / (returns.length : ℚ)
    let variance := (returns.map (fun r => (r - mean) ^ 2)).sum / (returns.length : ℚ)
    sq variance

/-- Embeds `calculateVolatilityAdjustedMomentum`: short-term momentum damped by
volatility over the last 20 observations. -/
def calculateVolatilityAdjustedMomentum (sq : ℚ → ℚ) (history : List MarketData) : ℚ :=
  if history.length < 20 then 0 else
    let recent := takeLast 20 history
    let volatility := calculateVolatility sq recent
    let momentum := calculateShortTermMomentum recent
    if 0 < volatility then momentum / (1 + volatility) else momentum

/-- Embeds `calculateRSquared`: coefficient of determination of the no-intercept fit
`predicted = slope * x` (the source omits the intercept), guarded by
`ssTot > 0`. -/
def calculateRSquared (prices xs : List ℚ) (slope : ℚ) : ℚ :=
  let meanY := prices.sum / (prices.length : ℚ)
  let ssRes := ((xs.zip prices).map (fun p => (p.2 - slope * p.1) ^ 2)).sum
  let ssTot := (prices.map (fun y => (y - meanY) ^ 2)).sum
  if 0 < ssTot then 1 - ssRes / ssTot else 0

/-- Embeds `calculateTrendStrength` of the momentum bot: OLS slope over the last 10
prices times the (no-intercept) R².  The slope denominator
`n*sumXX - sumX^2` is a fixed positive constant for `n = 10`. -/
def calculateTrendStrength (history : List MarketData) : ℚ :=
  if history.length < 10 then 0 else
    let recent := takeLast 10 history
    let prices := recent.map (·.price)
    let n := (prices.length : ℚ)
    let xs := (List.range prices.length).map (fun i => (i : ℚ))
    let sumX := xs.sum
    let sumY := prices.sum
    let sumXY := ((xs.zip prices).map (fun p => p.1 * p.2)).sum
    let sumXX := (xs.map (fun x => x * x)).sum
    let slope := (n * sumXY - sumX * sumY) / (n * sumXX - sumX * sumX)
    slope * calculateRSquared prices xs slope * 100

/-- The five sub-score weights per risk profile (`getMomentumWeights`). -/
structure MomentumWeights where
  shortTerm : ℚ
  mediumTerm : ℚ
  volumeWeighted : ℚ
  volatilityAdjusted : ℚ
  trendStrength : ℚ
deriving Repr, DecidableEq

/-- Embeds `getMomentumWeights`. -/
def getMomentumWeights (r : RiskProfile) : MomentumWeights :=
  match r with
  | .conservative => ⟨2/10, 4/10, 2/10, 15/100, 5/100⟩
  | .moderate => ⟨3/10, 3/10, 2/10, 15/100, 5/100⟩
  | .aggressive => ⟨4/10, 2/10, 2/10, 1/10, 1/10⟩

/-- One entry of `calculateMomentumScores`. -/
structure ScoredAsset where
  symbol : String
  score : ℚ
  data : MarketData
deriving Repr, DecidableEq

/-- Embeds `calculateMomentumScores`: composite momentum score for every market-data
entry (score `0` below 10 observations of history). -/
def calculateMomentumScores (sq : ℚ → ℚ) (cfg : BotConfig)
    (histories : SMap (List MarketData)) (marketData : List MarketData) :
    List ScoredAsset :=
  marketData.map (fun data =>
    let history := (histories.lookup data.symbol).getD []
    if history.length < 10 then ⟨data.symbol, 0, data⟩ else
      let w := getMomentumWeights cfg.riskLevel
      let finalScore :=
        calculateShortTermMomentum history * w.shortTerm +
        calculateMediumTermMomentum history * w.mediumTerm +
        calculateVolumeWeightedMomentum history * w.volumeWeighted +
        calculateVolatilityAdjustedMomentum sq history * w.volatilityAdjusted +
        calculateTrendStrength history * w.trendStrength
      ⟨data.symbol, finalScore, data⟩)

/-- Insertion step of the descending sort on scores
(`.sort((a, b) => b.score - a.score)`). -/
def insertScoreDesc (a : ScoredAsset) : List ScoredAsset → List ScoredAsset
  | [] => [a]
  | b :: rest =>
      if b.score < a.score then a :: b :: rest else b :: insertScoreDesc a rest

/-- Sort scored assets by descending score. -/
def sortByScoreDesc : List ScoredAsset → List ScoredAsset
  | [] => []
  | a :: rest => insertScoreDesc a (sortByScoreDesc rest)

/-- Embeds `generateRebalancingSignals`: SELL positions that fell out of the top
set, BUY new entrants (confidence `min(95, 60 + score)`), resize positions
that drifted more than 10% from target. -/
def generateRebalancingSignals (cfg : BotConfig) (now : ℤ)
    (positions : SMap Position) (topPerformers : List ScoredAsset) :
    List TradingSignal :=
  let allocationPerPosition := cfg.allocation / (cfg.maxPositions : ℚ)
  let sells := positions.entries.filterMap (fun kv =>
    if topPerformers.any (fun asset => asset.symbol == kv.1) then none
    else some
      { action := .sell, symbol := kv.1, confidence := 85,
        price := kv.2.currentPrice, quantity := some kv.2.quantity,
        reason := "Not in top performers - rebalancing", timestamp := now,
        riskLevel := .medium })
  let buys := topPerformers.filterMap (fun asset =>
    let targetQuantity := allocationPerPosition / asset.data.price
    match positions.lookup asset.symbol with
    | none =>
        some
          { action := .buy, symbol := asset.symbol,
            confidence := min 95 (60 + asset.score), price := asset.data.price,
            quantity := some targetQuantity, reason := "High momentum score",
            timestamp := now,
            riskLevel := if 50 < asset.score then .high else .medium }
    | some currentPosition =>
        if 1/10 < |currentPosition.quantity - targetQuantity| / targetQuantity then
          let quantityDiff := targetQuantity - currentPosition.quantity
          some
            { action := if 0 < quantityDiff then .buy else .sell,
              symbol := asset.symbol, confidence := 75,
              price := asset.data.price, quantity := some |quantityDiff|,
              reason := "Rebalancing position", timestamp := now,
              riskLevel := .medium }
        else none)
  sells ++ buys

/-- Embeds `checkStopLossTriggers`: SELL any position whose absolute PnL percentage
reaches the configured stop-loss. -/
def checkStopLossTriggers (cfg : BotConfig) (now : ℤ)
    (positions : SMap Position) : List TradingSignal :=
  positions.entries.filterMap (fun kv =>
    let lossPercentage := |kv.2.pnlPercentage|
    if cfg.stopLoss ≤ lossPercentage then
      some
        { action := .sell, symbol := kv.1, confidence := 100,
          price := kv.2.currentPrice, quantity := some kv.2.quantity,
          reason := "Stop-loss triggered", timestamp := now,
          riskLevel := .high }
    else none)

/-- Embeds `checkTakeProfitTriggers` (the caller guards on a truthy
`config.takeProfit`, and the function itself re-checks it). -/
def checkTakeProfitTriggers (cfg : BotConfig) (now : ℤ)
    (positions : SMap Position) : List TradingSignal :=
  if truthyQ cfg.takeProfit = false then [] else
    positions.entries.filterMap (fun kv =>
      if cfg.takeProfit.getD 0 ≤ kv.2.pnlPercentage then
        some
          { action := .sell, symbol := kv.1, confidence := 90,
            price := kv.2.currentPrice, quantity := some kv.2.quantity,
            reason := "Take-profit triggered", timestamp := now,
            riskLevel := .low }
      else none)

/-- History update of `MomentumTradingBot.analyzeMarket`: push each
observation, keep at most 1000 points per symbol. -/
def momentumUpdateHistory (histories : SMap (List MarketData))
    (marketData : List MarketData) : SMap (List MarketData) :=
  marketData.foldl (fun h data =>
    let history := (h.lookup data.symbol).getD []
    let history := history ++ [data]
    let history := if 1000 < history.length then history.tail else history
    h.set data.symbol history) histories

/-- Embeds `MomentumTradingBot.analyzeMarket`: update history; return no signals
within 15 minutes (`15 * 60 * 1000` ms) of the previous rebalance; otherwise
rank enabled symbols by composite momentum score, emit rebalancing signals
for the top `maxPositions`, then stop-loss and (when configured) take-profit
signals. -/
def momentumAnalyzeMarket (sq : ℚ → ℚ) (cfg : BotConfig) (now : ℤ)
    (st : MomState) (marketData : List MarketData) :
    MomState × List TradingSignal :=
  let histories := momentumUpdateHistory st.priceHistory marketData
  if now - st.lastRebalance < 15 * 60 * 1000 then
    ({ st with priceHistory := histories }, [])
  else
    let momentumScores := calculateMomentumScores sq cfg histories marketData
    let sortedAssets :=
      (sortByScoreDesc momentumScores).filter
        (fun asset => cfg.enabledAssets.contains asset.symbol)
    let topPerformers := sortedAssets.take cfg.maxPositions
    let signals := generateRebalancingSignals cfg now st.positions topPerformers
    let signals := signals ++ checkStopLossTriggers cfg now st.positions
    let signals := signals ++
      (if truthyQ cfg.takeProfit then checkTakeProfitTriggers cfg now st.positions
       else [])
    ({ st with priceHistory := histories, lastRebalance := now }, signals)

/-- Embeds `MomentumTradingBot.updatePosition`: weighted-average cost on BUY, delete
the position when the remaining quantity after a SELL is at most `0.001`.
`HOLD` is unrepresentable in the source signature and leaves the map
unchanged. -/
def momentumUpdatePosition (now : ℤ) (positions : SMap Position)
    (symbol : String) (action : TradeAction) (quantity price : ℚ) :
    SMap Position :=
  match action with
  | .buy =>
      match positions.lookup symbol with
      | some currentPosition =>
          let totalQuantity := currentPosition.quantity + quantity
          let totalValue :=
            currentPosition.quantity * currentPosition.entryPrice + quantity * price
          let newEntryPrice := totalValue / totalQuantity
          positions.set symbol
            { symbol := symbol, quantity := totalQuantity,
              entryPrice := newEntryPrice, currentPrice := price,
              pnl := (price - newEntryPrice) * totalQuantity,
              pnlPercentage := (price - newEntryPrice) / newEntryPrice * 100,
              timestamp := now }
      | none =>
          positions.set symbol
            { symbol := symbol, quantity := quantity, entryPrice := price,
              currentPrice := price, pnl := 0, pnlPercentage := 0,
              timestamp := now }
  | .sell =>
      match positions.lookup symbol with
      | some currentPosition =>
          let remainingQuantity := currentPosition.quantity - quantity
          if remainingQuantity ≤ 1/1000 then positions.erase symbol
          else
            positions.set symbol
              { currentPosition with
                quantity := remainingQuantity, currentPrice := price,
                pnl := (price - currentPosition.entryPrice) * remainingQuantity,
                pnlPercentage :=
                  (price - currentPosition.entryPrice) /
                    currentPosition.entryPrice * 100 }
      | none => positions
  | .hold => positions

-- ===========================================================================
-- DCATradingBot (src/algorithms/DCATradingBot.ts)
-- ===========================================================================

/-- The DAILY / WEEKLY / MONTHLY / CUSTOM DCA cadence. -/
inductive DCAFrequency where
  | daily
  | weekly
  | monthly
  | custom
deriving Repr, DecidableEq

/-- Embeds `DCASchedule`. -/
structure DCASchedule where
  frequency : DCAFrequency
  interval : ℚ
  amount : ℚ
  startDate : ℤ
  endDate : Option ℤ
  maxPurchases : Option ℕ
deriving Repr, DecidableEq

/-- One entry of the DCA purchase ledger. -/
structure DCAPurchase where
  date : ℤ
  price : ℚ
  quantity : ℚ
  amount : ℚ
deriving Repr, DecidableEq

/-- Embeds `DCAPosition`. -/
structure DCAPosition where
  symbol : String
  totalQuantity : ℚ
  totalInvested : ℚ
  averagePrice : ℚ
  currentValue : ℚ
  totalPnL : ℚ
  totalPnLPercentage : ℚ
  purchases : List DCAPurchase
  lastPurchase : ℤ
  nextPurchase : ℤ
deriving Repr, DecidableEq

/-- Embeds `getIntervalMs`: purchase interval in milliseconds.  For the `CUSTOM`
cadence the source multiplies `schedule.interval` hours by `3600000`; the
product is truncated to an integer timestamp offset. -/
def getIntervalMs (schedule : DCASchedule) : ℤ :=
  match schedule.frequency with
  | .daily => 24 * 60 * 60 * 1000
  | .weekly => 7 * 24 * 60 * 60 * 1000
  | .monthly => 30 * 24 * 60 * 60 * 1000
  | .custom => ⌊schedule.interval * 60 * 60 * 1000⌋

/-- Embeds `DCATradingBot.updatePosition`: BUY extends the purchase ledger and
recomputes the weighted average; SELL deletes the position outright. -/
def dcaUpdatePosition (schedule : DCASchedule) (now : ℤ)
    (positions : SMap DCAPosition) (symbol : String) (action : TradeAction)
    (quantity price : ℚ) : SMap DCAPosition :=
  match action with
  | .buy =>
      let amount := quantity * price
      match positions.lookup symbol with
      | some currentPosition =>
          let newTotalQuantity := currentPosition.totalQuantity + quantity
          let newTotalInvested := currentPosition.totalInvested + amount
          let newAveragePrice := newTotalInvested / newTotalQuantity
          positions.set symbol
            { symbol := symbol, totalQuantity := newTotalQuantity,
              totalInvested := newTotalInvested,
              averagePrice := newAveragePrice,
              currentValue := newTotalQuantity * price,
              totalPnL := (price - newAveragePrice) * newTotalQuantity,
              totalPnLPercentage :=
                (price - newAveragePrice) / newAveragePrice * 100,
              purchases := currentPosition.purchases ++
                [⟨now, price, quantity, amount⟩],
              lastPurchase := now,
              nextPurchase := now + getIntervalMs schedule }
      | none =>
          positions.set symbol
            { symbol := symbol, totalQuantity := quantity,
              totalInvested := amount, averagePrice := price,
              currentValue := quantity * price, totalPnL := 0,
              totalPnLPercentage := 0,
              purchases := [⟨now, price, quantity, amount⟩],
              lastPurchase := now,
              nextPurchase := now + getIntervalMs schedule }
  | .sell =>
      match positions.lookup symbol with
      | some _ => positions.erase symbol
      | none => positions
  | .hold => positions

/-- The BULLISH / BEARISH / SIDEWAYS trend tag of the channel-index bot. -/
inductive CCITrendTag where
  | bullish
  | bearish
  | sideways
deriving Repr, DecidableEq, Inhabited

/-- The OVERBOUGHT / OVERSOLD / NEUTRAL oscillator tag. -/
inductive CCISignalTag where
  | overbought
  | oversold
  | neutral
deriving Repr, DecidableEq, Inhabited

/-- Embeds `CCIData`: one observation of the channel-index history together
with the indicator fields written back into it. -/
structure CCIData where
  symbol : String
  timestamp : ℤ
  price : ℚ
  high : ℚ
  low : ℚ
  close : ℚ
  volume : ℚ
  cci : ℚ
  cciMA : ℚ
  cciSignal : CCISignalTag
  trend : CCITrendTag
  strength : ℚ
deriving Repr, DecidableEq, Inhabited

/-- Embeds `CCIPosition`. -/
structure CCIPosition where
  symbol : String
  quantity : ℚ
  entryPrice : ℚ
  currentPrice : ℚ
  pnl : ℚ
  pnlPercentage : ℚ
  entrySignal : String
  entryTimestamp : ℤ
  stopLoss : ℚ
  takeProfit : ℚ
  active : Bool
deriving Repr, DecidableEq

/-- Embeds `CCIMarketBot.computeCCI`: typical price against its moving average,
scaled by `0.015 ×` mean absolute deviation, with the zero-deviation guard
returning `0`. -/
def computeCCI (period : ℕ) (history : List CCIData) : ℚ :=
  let recent := takeLast period history
  let typicalPrices := recent.map (fun d => (d.high + d.low + d.close) / 3)
  let smaTP := typicalPrices.sum / (period : ℚ)
  let meanDeviation :=
    (typicalPrices.map (fun tp => |tp - smaTP|)).sum / (period : ℚ)
  let currentTP := (typicalPrices.getLast?).getD 0
  if meanDeviation ≠ 0 then (currentTP - smaTP) / (3/200 * meanDeviation) else 0

/-- Embeds `CCIMarketBot.updatePosition`: weighted-average cost on BUY (stop-loss
and take-profit prices fixed at entry), delete on SELL when the remaining
quantity is at most `0.001`. -/
def cciUpdatePosition (cfg : BotConfig) (now : ℤ)
    (positions : SMap CCIPosition) (symbol : String) (action : TradeAction)
    (quantity price : ℚ) : SMap CCIPosition :=
  match action with
  | .buy =>
      match positions.lookup symbol with
      | some currentPosition =>
          let totalQuantity := currentPosition.quantity + quantity
          let totalValue :=
            currentPosition.quantity * currentPosition.entryPrice + quantity * price
          let newEntryPrice := totalValue / totalQuantity
          positions.set symbol
            { currentPosition with
              quantity := totalQuantity, entryPrice := newEntryPrice,
              currentPrice := price,
              pnl := (price - newEntryPrice) * totalQuantity,
              pnlPercentage := (price - newEntryPrice) / newEntryPrice * 100 }
      | none =>
          positions.set symbol
            { symbol := symbol, quantity := quantity, entryPrice := price,
              currentPrice := price, pnl := 0, pnlPercentage := 0,
              entrySignal := "CCI Oversold", entryTimestamp := now,
              stopLoss := price * (1 - cfg.stopLoss / 100),
              takeProfit :=
                if truthyQ cfg.takeProfit then
                  price * (1 + cfg.takeProfit.getD 0 / 100)
                else 0,
              active := true }
  | .sell =>
      match positions.lookup symbol with
      | some currentPosition =>
          let remainingQuantity := currentPosition.quantity - quantity
          if remainingQuantity ≤ 1/1000 then positions.erase symbol
          else
            positions.set symbol
              { currentPosition with
                quantity := remainingQuantity, currentPrice := price,
                pnl := (price - currentPosition.entryPrice) * remainingQuantity,
                pnlPercentage :=
                  (price - currentPosition.entryPrice) /
                    currentPosition.entryPrice * 100 }
      | none => positions
  | .hold => positions

/-- The DAILY / WEEKLY / MONTHLY compounding cadence. -/
inductive CompFreq where
  | daily
  | weekly
  | monthly
deriving Repr, DecidableEq

/-- Embeds `StakingOpportunity`.  `maxStake` is optional (`maxStake?: number`);
`lastUpdated` is never read by the allocation pipeline and is omitted. -/
structure StakingOpportunity where
  symbol : String
  platform : String
  apy : ℚ
  minStake : ℚ
  maxStake : Option ℚ
  lockPeriod : ℚ
  riskLevel : RiskRating
  liquidity : RiskRating
  compoundFrequency : CompFreq
  fees : ℚ
deriving Repr, DecidableEq

/-- The ACTIVE / UNLOCKING / UNLOCKED status of a staking position. -/
inductive StakeStatus where
  | active
  | unlocking
  | unlocked
deriving Repr, DecidableEq

/-- Embeds `StakingPosition`. -/
structure StakingPosition where
  symbol : String
  platform : String
  stakedAmount : ℚ
  apy : ℚ
  startDate : ℤ
  endDate : ℤ
  lockPeriod : ℚ
  compoundFrequency : CompFreq
  estimatedRewards : ℚ
  actualRewards : ℚ
  status : StakeStatus
  riskLevel : RiskRating
deriving Repr, DecidableEq

/-- Embeds `StakingAllocation` (`priority` is `Math.round(score)`, which in
JavaScript is the floor of the score plus one half; the free-text `reason`
field is omitted). -/
structure StakingAllocation where
  symbol : String
  platform : String
  amount : ℚ
  apy : ℚ
  priority : ℤ
deriving Repr, DecidableEq

/-- Embeds `calculateStakingScore`: APY times risk, liquidity, fee, lock-period,
compounding, and market-condition factors, floored at `0`. -/
def calculateStakingScore (opp : StakingOpportunity)
    (marketData : List MarketData) : ℚ :=
  let s := opp.apy * 10
  let s := s * (match opp.riskLevel with
    | .low => 12/10
    | .medium => 1
    | .high => 7/10)
  let s := s * (match opp.liquidity with
    | .high => 11/10
    | .medium => 1
    | .low => 8/10)
  let s := s * (1 - opp.fees / 100)
  let s := if 0 < opp.lockPeriod then s * max (1/2) (1 - opp.lockPeriod / 365) else s
  let s := s * (match opp.compoundFrequency with
    | .daily => 11/10
    | .weekly => 1
    | .monthly => 9/10)
  let s :=
    match marketData.find? (fun d => d.symbol == opp.symbol) with
    | some assetData =>
        if -2 < assetData.change24h ∧ assetData.change24h < 5 then s * (11/10)
        else if assetData.change24h < -10 then s * (8/10)
        else s
    | none => s
  max 0 s

/-- JavaScript `a || b` for an optional number `a`: `undefined` and `0` fall
through to `b` (used for `opp.maxStake || remainingCapital`). -/
def jsOrQ (m : Option ℚ) (d : ℚ) : ℚ :=
  match m with
  | none => d
  | some x => if x = 0 then d else x

/-- Insertion step of the descending sort on opportunity scores. -/
def insertOppDesc (a : StakingOpportunity × ℚ) :
    List (StakingOpportunity × ℚ) → List (StakingOpportunity × ℚ)
  | [] => [a]
  | b :: rest => if b.2 < a.2 then a :: b :: rest else b :: insertOppDesc a rest

/-- Sort scored opportunities by descending score
(`.sort((a, b) => b.score - a.score)`). -/
def sortOppsDesc : List (StakingOpportunity × ℚ) → List (StakingOpportunity × ℚ)
  | [] => []
  | a :: rest => insertOppDesc a (sortOppsDesc rest)

/-- The greedy allocation loop of `calculateOptimalAllocations`: cap each
allocation at `min(remainingCapital, maxStake || remainingCapital, 30% of
total capital)`, skip opportunities whose cap is below their minimum stake,
stop once capital is exhausted. -/
def allocLoop (totalCapital : ℚ) :
    ℚ → List (StakingOpportunity × ℚ) → List StakingAllocation
  | _, [] => []
  | remainingCapital, (opp, score) :: rest =>
      if remainingCapital ≤ 0 then allocLoop totalCapital remainingCapital rest
      else
        let maxAllocation :=
          min (min remainingCapital (jsOrQ opp.maxStake remainingCapital))
            (totalCapital * (3/10))
        if opp.minStake ≤ maxAllocation then
          { symbol := opp.symbol, platform := opp.platform,
            amount := maxAllocation, apy := opp.apy,
            priority := round score } ::
            allocLoop totalCapital (remainingCapital - maxAllocation) rest
        else allocLoop totalCapital remainingCapital rest

/-- Embeds `SmartStakingBot.calculateOptimalAllocations`: available capital is the
configured allocation minus the currently staked amounts; eligible
opportunities are scored, sorted descending, and greedily funded. -/
def calculateOptimalAllocations (cfg : BotConfig)
    (positions : List StakingPosition)
    (opportunities : List StakingOpportunity)
    (marketData : List MarketData) : List StakingAllocation :=
  let totalCapital := cfg.allocation
  let currentStaked := (positions.map (·.stakedAmount)).sum
  let availableCapital := totalCapital - currentStaked
  let scored :=
    (opportunities.filter (fun o => cfg.enabledAssets.contains o.symbol)).map
      (fun o => (o, calculateStakingScore o marketData))
  allocLoop totalCapital availableCapital (sortOppsDesc scored)

/-- The first price of the batch for a symbol, as an optional number
(`marketData.find(d => d.symbol === symbol)?.price`). -/
def mdPrice (marketData : List MarketData) (symbol : String) : Option ℚ :=
  (marketData.find? (fun d => d.symbol == symbol)).map (·.price)

/-- Embeds `getCompoundIntervalMs`. -/
def getCompoundIntervalMs (frequency : CompFreq) : ℤ :=
  match frequency with
  | .daily => 24 * 60 * 60 * 1000
  | .weekly => 7 * 24 * 60 * 60 * 1000
  | .monthly => 30 * 24 * 60 * 60 * 1000

/-- Embeds `shouldCompound`: the compound interval has elapsed since the start
date and there are positive estimated rewards. -/
def shouldCompound (position : StakingPosition) (now : ℤ) : Bool :=
  decide (getCompoundIntervalMs position.compoundFrequency <
      now - position.startDate) &&
    decide (0 < position.estimatedRewards)

/-- Embeds `manageExistingPositions`: an ACTIVE position past its end date is
marked UNLOCKED and sold at confidence 100; an ACTIVE position due for
compounding buys its estimated rewards at confidence 85 (the status mutation
happens before the compound check, so a position unlocked in this very call
is not compounded). -/
def manageExistingPositions (positions : SMap StakingPosition)
    (marketData : List MarketData) (now : ℤ) :
    SMap StakingPosition × List TradingSignal :=
  let step := positions.entries.map (fun kv =>
    let position := kv.2
    let unlock :=
      if position.status = .active ∧ position.endDate ≤ now then
        ({ position with status := StakeStatus.unlocked },
         [{ action := .sell, symbol := position.symbol, confidence := 100,
            price := jsOrQ (mdPrice marketData position.symbol) 0,
            quantity := some (position.stakedAmount /
              jsOrQ (mdPrice marketData position.symbol) 1),
            reason := "Staking period completed - unlocking funds",
            timestamp := now, riskLevel := RiskRating.low }])
      else (position, [])
    let compound :=
      if unlock.1.status = .active ∧ shouldCompound unlock.1 now then
        [{ action := .buy, symbol := unlock.1.symbol, confidence := 85,
           price := jsOrQ (mdPrice marketData unlock.1.symbol) 0,
           quantity := some (unlock.1.estimatedRewards /
             jsOrQ (mdPrice marketData unlock.1.symbol) 1),
           reason := "Compounding staking rewards", timestamp := now,
           riskLevel := RiskRating.low }]
      else []
    ((kv.1, unlock.1), unlock.2 ++ compound))
  (step.map (·.1), step.flatMap (·.2))

/-- Extended rational mirroring IEEE-754 special values as JavaScript
arithmetic produces them: `nan`, the two infinities, and finite values
(modelled exactly as rationals — the claims about the `RiskManager` hinge on
`NaN`/`Infinity` propagation and comparison semantics, not on rounding). -/
inductive JRat where
  | nan
  | pinf
  | ninf
  | fin (q : ℚ)
deriving Repr, DecidableEq

/-- JavaScript addition. -/
def JRat.add : JRat → JRat → JRat
  | nan, _ => nan
  | _, nan => nan
  | pinf, ninf => nan
  | ninf, pinf => nan
  | pinf, _ => pinf
  | _, pinf => pinf
  | ninf, _ => ninf
  | _, ninf => ninf
  | fin a, fin b => fin (a + b)

/-- JavaScript negation. -/
def JRat.neg : JRat → JRat
  | nan => nan
  | pinf => ninf
  | ninf => pinf
  | fin a => fin (-a)

/-- JavaScript subtraction. -/
def JRat.sub (a b : JRat) : JRat := a.add b.neg

/-- JavaScript multiplication (`0 * ±Infinity = NaN`). -/
def JRat.mul : JRat → JRat → JRat
  | nan, _ => nan
  | _, nan => nan
  | pinf, pinf => pinf
  | pinf, ninf => ninf
  | ninf, pinf => ninf
  | ninf, ninf => pinf
  | pinf, fin b => if b = 0 then nan else if 0 < b then pinf else ninf
  | fin a, pinf => if a = 0 then nan else if 0 < a then pinf else ninf
  | ninf, fin b => if b = 0 then nan else if 0 < b then ninf else pinf
  | fin a, ninf => if a = 0 then nan else if 0 < a then ninf else pinf
  | fin a, fin b => fin (a * b)

/-- JavaScript division (`x/0` is `±Infinity` for `x ≠ 0` and `NaN` for
`x = 0`; finite over infinite is `0`; infinite over infinite is `NaN`).
Rational zero is unsigned, so the `±0` divisor distinction collapses to the
positive-zero case, which is the value JavaScript number literals and the
sums appearing in this code produce. -/
def JRat.div : JRat → JRat → JRat
  | nan, _ => nan
  | _, nan => nan
  | pinf, pinf => nan
  | pinf, ninf => nan
  | ninf, pinf => nan
  | ninf, ninf => nan
  | pinf, fin b => if 0 ≤ b then pinf else ninf
  | ninf, fin b => if 0 ≤ b then ninf else pinf
  | fin _, pinf => fin 0
  | fin _, ninf => fin 0
  | fin a, fin b =>
      if b = 0 then (if a = 0 then nan else if 0 < a then pinf else ninf)
      else fin (a / b)

/-- JavaScript `<` (`false` whenever an operand is `NaN`). -/
def JRat.lt : JRat → JRat → Bool
  | nan, _ => false
  | _, nan => false
  | pinf, _ => false
  | ninf, ninf => false
  | ninf, _ => true
  | fin _, pinf => true
  | fin _, ninf => false
  | fin a, fin b => decide (a < b)

/-- JavaScript `<=` (`false` whenever an operand is `NaN`). -/
def JRat.le : JRat → JRat → Bool
  | nan, _ => false
  | _, nan => false
  | ninf, _ => true
  | _, pinf => true
  | pinf, _ => false
  | fin _, ninf => false
  | fin a, fin b => decide (a ≤ b)

/-- JavaScript `>`. -/
def JRat.gt (a b : JRat) : Bool := JRat.lt b a

/-- JavaScript `>=`. -/
def JRat.ge (a b : JRat) : Bool := JRat.le b a

/-- Embeds `array.reduce((sum, x) => sum + x, 0)` over JavaScript numbers. -/
def JRat.sumL (l : List JRat) : JRat := l.foldl JRat.add (JRat.fin 0)

/-- Arithmetic on a possibly-missing number: reading an absent field yields
`undefined`, which behaves as `NaN` in arithmetic. -/
def JRat.ofo (o : Option ℚ) : JRat :=
  match o with
  | some q => JRat.fin q
  | none => JRat.nan

-- ===========================================================================
-- RiskManager (src/unnamed/part_000)
-- ===========================================================================

/-- Embeds `RiskLimits`. -/
structure RiskLimits where
  maxPositionSize : ℚ
  maxTotalExposure : ℚ
  maxDrawdown : ℚ
  maxCorrelation : ℚ
  maxVolatility : ℚ
  minLiquidity : ℚ
  maxLeverage : ℚ
  emergencyStopLoss : ℚ
deriving Repr, DecidableEq

/-- Embeds `Partial<RiskLimits>` as accepted by `updateRiskLimits`: each field may
be absent. -/
structure PartialRiskLimits where
  maxPositionSize : Option ℚ := none
  maxTotalExposure : Option ℚ := none
  maxDrawdown : Option ℚ := none
  maxCorrelation : Option ℚ := none
  maxVolatility : Option ℚ := none
  minLiquidity : Option ℚ := none
  maxLeverage : Option ℚ := none
  emergencyStopLoss : Option ℚ := none
deriving Repr, DecidableEq

/-- Embeds `RiskManager.updateRiskLimits`: `this.riskLimits = { ...this.riskLimits,
...newLimits }` — fields present in the update win, all others keep their
current value. -/
def updateRiskLimits (l : RiskLimits) (u : PartialRiskLimits) : RiskLimits :=
  { maxPositionSize := u.maxPositionSize.getD l.maxPositionSize,
    maxTotalExposure := u.maxTotalExposure.getD l.maxTotalExposure,
    maxDrawdown := u.maxDrawdown.getD l.maxDrawdown,
    maxCorrelation := u.maxCorrelation.getD l.maxCorrelation,
    maxVolatility := u.maxVolatility.getD l.maxVolatility,
    minLiquidity := u.minLiquidity.getD l.minLiquidity,
    maxLeverage := u.maxLeverage.getD l.maxLeverage,
    emergencyStopLoss := u.emergencyStopLoss.getD l.emergencyStopLoss }

/-- Embeds `RiskManager.getRiskLimits` (returns the stored limits object). -/
def getRiskLimits (l : RiskLimits) : RiskLimits := l

/-- Embeds `calculatePortfolioValue`: sum of `quantity × price` over the positions,
falling back to `position.value` when the symbol is missing from the market
data — a field the `Position` type does not have, so the JavaScript fallback
reads `undefined` and the sum becomes `NaN`. -/
def calculatePortfolioValue (positions : List Position)
    (marketData : List MarketData) : JRat :=
  positions.foldl (fun total p =>
    total.add (match marketData.find? (fun d => d.symbol == p.symbol) with
      | some assetData => JRat.fin (p.quantity * assetData.price)
      | none => JRat.nan)) (JRat.fin 0)

/-- Embeds `calculateTotalExposure` (delegates to the portfolio value). -/
def calculateTotalExposure (positions : List Position)
    (marketData : List MarketData) : JRat :=
  calculatePortfolioValue positions marketData

/-- Embeds `calculateCurrentDrawdown`: percentage below the peak recorded portfolio
value.  The performance history is embedded as its list of values (the
`timestamp`/`drawdown` companion fields are never read by the functions the
claims are about). -/
def calculateCurrentDrawdown (perfHistory : List ℚ) (currentValue : JRat) :
    JRat :=
  if perfHistory.length < 2 then JRat.fin 0
  else
    let peak := match perfHistory with
      | [] => 0
      | h :: t => t.foldl max h
    if 0 < peak then
      (((JRat.fin peak).sub currentValue).div (JRat.fin peak)).mul (JRat.fin 100)
    else JRat.fin 0

/-- Embeds `calculatePortfolioVolatility`: standard deviation (in percent) of the
one-step portfolio-value returns, with the portfolio revalued against each
single observation.  `jsqrt` abstracts `Math.sqrt`. -/
def calculatePortfolioVolatility (jsqrt : JRat → JRat)
    (positions : List Position) (marketData : List MarketData) : JRat :=
  if positions.length = 0 then JRat.fin 0
  else
    let pvs := marketData.map (fun d => calculatePortfolioValue positions [d])
    let returns := (pvs.zip pvs.tail).map (fun pr => (pr.2.sub pr.1).div pr.1)
    let n := JRat.fin (returns.length : ℚ)
    let meanReturn := (JRat.sumL returns).div n
    let variance :=
      (JRat.sumL (returns.map (fun r => (r.sub meanReturn).mul (r.sub meanReturn)))).div n
    (jsqrt variance).mul (JRat.fin 100)

/-- Embeds `calculatePortfolioCorrelation`: `0` below two positions, otherwise the
documented placeholder constant `0.3`. -/
def calculatePortfolioCorrelation (positions : List Position) : JRat :=
  if positions.length < 2 then JRat.fin 0 else JRat.fin (3/10)

/-- Market-condition tags of `MarketCondition`. -/
inductive TrendTag where
  | bull
  | bear
  | sideways
deriving Repr, DecidableEq

/-- Volatility buckets. -/
inductive VolTag where
  | low
  | medium
  | high
  | extreme
deriving Repr, DecidableEq

/-- Volume buckets. -/
inductive VolumeTag where
  | low
  | normal
  | high
deriving Repr, DecidableEq

/-- Sentiment buckets. -/
inductive SentTag where
  | fear
  | neutral
  | greed
deriving Repr, DecidableEq

/-- Embeds `analyzeTrend`: net change of the observation window (`> +5%` bull,
`< −5%` bear, else sideways; fewer than 10 observations is sideways). -/
def analyzeTrend (marketData : List MarketData) : TrendTag :=
  if marketData.length < 10 then .sideways
  else
    let prices := marketData.map (·.price)
    let firstP := (prices.head?).getD 0
    let lastP := (prices.getLast?).getD 0
    let change := (JRat.fin (lastP - firstP)).div (JRat.fin firstP)
    if change.gt (JRat.fin (1/20)) then .bull
    else if change.lt (JRat.fin (-(1/20))) then .bear
    else .sideways

/-- Embeds `analyzeVolatility`: root mean square of the one-step returns, bucketed
at 2% / 5% / 10% (fewer than 10 observations is `MEDIUM`). -/
def analyzeVolatilityTag (jsqrt : JRat → JRat) (marketData : List MarketData) :
    VolTag :=
  if marketData.length < 10 then .medium
  else
    let prices := marketData.map (·.price)
    let returns :=
      (prices.zip prices.tail).map (fun p => (JRat.fin (p.2 - p.1)).div (JRat.fin p.1))
    let volatility :=
      jsqrt ((JRat.sumL (returns.map (fun r => r.mul r))).div
        (JRat.fin (returns.length : ℚ)))
    if volatility.lt (JRat.fin (1/50)) then .low
    else if volatility.lt (JRat.fin (1/20)) then .medium
    else if volatility.lt (JRat.fin (1/10)) then .high
    else .extreme

/-- Embeds `analyzeVolume`: latest volume against the window average, bucketed at
0.7 / 1.5 (fewer than 10 observations is `NORMAL`). -/
def analyzeVolumeTag (marketData : List MarketData) : VolumeTag :=
  if marketData.length < 10 then .normal
  else
    let volumes := marketData.map (·.volume)
    let avgVolume := volumes.sum / (volumes.length : ℚ)
    let latestVolume := (volumes.getLast?).getD 0
    let volumeRatio := (JRat.fin latestVolume).div (JRat.fin avgVolume)
    if volumeRatio.lt (JRat.fin (7/10)) then .low
    else if volumeRatio.gt (JRat.fin (3/2)) then .high
    else .normal

/-- Embeds `analyzeSentiment`: fear/greed transform `(avg change24h + 10) × 5`
bucketed at 30 / 70 (fewer than 10 observations is `NEUTRAL`; the local
volatility computed in the source is dead code and is not embedded). -/
def analyzeSentiment (marketData : List MarketData) : SentTag :=
  if marketData.length < 10 then .neutral
  else
    let changes := marketData.map (·.change24h)
    let avgChange := changes.sum / (changes.length : ℚ)
    let fearGreedScore := (avgChange + 10) * 5
    if fearGreedScore < 30 then .fear
    else if 70 < fearGreedScore then .greed
    else .neutral

/-- Embeds `RiskManager.calculateTrendStrength`: no-intercept R² of the OLS fit over
the full observation window, scaled to 0–100 (50 below 10 observations).
The slope denominator `n*sumXX − sumX²` is positive for every window of at
least two observations, so plain rational division is exact here. -/
def rmTrendStrength (marketData : List MarketData) : ℚ :=
  if marketData.length < 10 then 50
  else
    let prices := marketData.map (·.price)
    let n := (prices.length : ℚ)
    let xs := (List.range prices.length).map (fun i => (i : ℚ))
    let sumX := xs.sum
    let sumY := prices.sum
    let sumXY := ((xs.zip prices).map (fun p => p.1 * p.2)).sum
    let sumXX := (xs.map (fun x => x * x)).sum
    let slope := (n * sumXY - sumX * sumY) / (n * sumXX - sumX * sumX)
    let meanY := sumY / n
    let ssRes := ((xs.zip prices).map (fun p => (p.2 - slope * p.1) ^ 2)).sum
    let ssTot := (prices.map (fun y => (y - meanY) ^ 2)).sum
    let rSquared := if 0 < ssTot then 1 - ssRes / ssTot else 0
    max 0 (min 100 (rSquared * 100))

/-- Embeds `RiskManager.calculateConfidence`: trend strength adjusted by the volume
and volatility buckets, clamped to 0–100. -/
def rmConfidence (jsqrt : JRat → JRat) (marketData : List MarketData) : ℚ :=
  let confidence := rmTrendStrength marketData
  let confidence :=
    match analyzeVolumeTag marketData with
    | .high => confidence + 10
    | .low => confidence - 15
    | .normal => confidence
  let confidence :=
    match analyzeVolatilityTag jsqrt marketData with
    | .low => confidence + 5
    | .high => confidence - 10
    | .extreme => confidence - 20
    | .medium => confidence
  max 0 (min 100 confidence)

/-- Embeds `MarketCondition`. -/
structure MarketCondition where
  trend : TrendTag
  volatility : VolTag
  volume : VolumeTag
  sentiment : SentTag
  strength : ℚ
  confidence : ℚ
deriving Repr, DecidableEq

/-- Embeds `RiskManager.analyzeMarketConditions` (the market-history append the
source performs on the instance state does not influence the returned
condition, which is computed from the argument only). -/
def analyzeMarketConditions (jsqrt : JRat → JRat)
    (marketData : List MarketData) : MarketCondition :=
  { trend := analyzeTrend marketData,
    volatility := analyzeVolatilityTag jsqrt marketData,
    volume := analyzeVolumeTag marketData,
    sentiment := analyzeSentiment marketData,
    strength := rmTrendStrength marketData,
    confidence := rmConfidence jsqrt marketData }

/-- Result record of `validateSignal` (and of the market-condition
adjustment, whose object carries no `adjustedQuantity`). -/
structure ValidationResult where
  approved : Bool
  adjustedQuantity : Option JRat
  reason : String
  riskLevel : RiskRating
deriving Repr, DecidableEq

/-- Embeds `getMarketConditionAdjustment`: block BUY during extreme volatility;
every other branch approves. -/
def getMarketConditionAdjustment (mc : MarketCondition)
    (signal : TradingSignal) : ValidationResult :=
  if mc.volatility = .extreme ∧ signal.action = .buy then
    { approved := false, adjustedQuantity := none,
      reason := "Buy signals blocked during extreme volatility",
      riskLevel := .high }
  else if mc.sentiment = .fear ∧ signal.action = .buy then
    { approved := true, adjustedQuantity := none,
      reason := "Buy signal approved despite fear sentiment",
      riskLevel := .high }
  else if mc.trend = .bear ∧ signal.action = .buy then
    { approved := true, adjustedQuantity := none,
      reason := "Buy signal approved in bear market", riskLevel := .high }
  else
    { approved := true, adjustedQuantity := none,
      reason := "Signal approved by market condition analysis",
      riskLevel := .medium }

/-- Embeds `calculateSignalRiskLevel`: risk score from signal confidence and market
condition, bucketed to LOW/MEDIUM/HIGH. -/
def calculateSignalRiskLevel (signal : TradingSignal) (mc : MarketCondition) :
    RiskRating :=
  let riskScore : ℕ :=
    (if signal.confidence < 60 then 2 else if signal.confidence < 80 then 1 else 0)
  let riskScore := riskScore +
    (match mc.volatility with
     | .extreme => 3
     | .high => 2
     | .medium => 1
     | .low => 0)
  let riskScore := riskScore +
    (match mc.sentiment with
     | .fear => 2
     | .greed => 1
     | .neutral => 0)
  let riskScore := riskScore + (if mc.trend = .bear then 2 else 0)
  if 4 ≤ riskScore then .high
  else if 2 ≤ riskScore then .medium
  else .low

/-- Embeds `RiskManager.validateSignal`: sequential checks — position-size breach
resizes (approves with a reduced quantity), then total exposure, drawdown,
volatility and correlation limits reject, the market-condition adjustment may
block a BUY, and the liquidity floor rejects thin assets; otherwise the
signal is approved.  Of the `calculateRiskMetrics` record the source builds
first, only the portfolio value, total exposure, current drawdown, volatility
and correlation fields are ever read here; the remaining statistics
(Sharpe/Sortino/Calmar/VaR/CVaR/beta) are computed but not consumed by this
function, and `calculateCVaR` is embedded separately below. -/
def validateSignal (jsqrt : JRat → JRat) (limits : RiskLimits)
    (perfHistory : List ℚ) (signal : TradingSignal)
    (positions : List Position) (marketData : List MarketData) :
    ValidationResult :=
  let portfolioValue := calculatePortfolioValue positions marketData
  let totalExposure := calculateTotalExposure positions marketData
  let currentDrawdown := calculateCurrentDrawdown perfHistory portfolioValue
  let volatility := calculatePortfolioVolatility jsqrt positions marketData
  let correlation := calculatePortfolioCorrelation positions
  let marketCondition := analyzeMarketConditions jsqrt marketData
  let positionValue := (JRat.ofo signal.quantity).mul (JRat.fin signal.price)
  let positionSizePercent := (positionValue.div portfolioValue).mul (JRat.fin 100)
  if positionSizePercent.gt (JRat.fin limits.maxPositionSize) then
    let adjustedQuantity :=
      (((JRat.fin limits.maxPositionSize).div (JRat.fin 100)).mul
        portfolioValue).div (JRat.fin signal.price)
    { approved := true, adjustedQuantity := some adjustedQuantity,
      reason := "Position size reduced to the limit", riskLevel := .high }
  else
    let newTotalExposure := totalExposure.add positionValue
    let exposurePercent := (newTotalExposure.div portfolioValue).mul (JRat.fin 100)
    if exposurePercent.gt (JRat.fin limits.maxTotalExposure) then
      { approved := false, adjustedQuantity := none,
        reason := "Total exposure would exceed limit", riskLevel := .high }
    else if currentDrawdown.gt (JRat.fin limits.maxDrawdown) then
      { approved := false, adjustedQuantity := none,
        reason := "Current drawdown exceeds limit", riskLevel := .high }
    else if volatility.gt (JRat.fin limits.maxVolatility) then
      { approved := false, adjustedQuantity := none,
        reason := "Portfolio volatility exceeds limit", riskLevel := .high }
    else if correlation.gt (JRat.fin limits.maxCorrelation) then
      { approved := false, adjustedQuantity := none,
        reason := "Portfolio correlation exceeds limit", riskLevel := .medium }
    else
      let marketAdjustment := getMarketConditionAdjustment marketCondition signal
      if marketAdjustment.approved = false then marketAdjustment
      else
        match marketData.find? (fun d => d.symbol == signal.symbol) with
        | some assetData =>
            if assetData.volume < limits.minLiquidity then
              { approved := false, adjustedQuantity := none,
                reason := "Insufficient liquidity", riskLevel := .high }
            else
              { approved := true, adjustedQuantity := none,
                reason := "Signal approved by risk management",
                riskLevel := calculateSignalRiskLevel signal marketCondition }
        | none =>
            { approved := true, adjustedQuantity := none,
              reason := "Signal approved by risk management",
              riskLevel := calculateSignalRiskLevel signal marketCondition }

/-- The one-step returns of the performance history as JavaScript numbers
(`(h[i].value − h[i−1].value) / h[i−1].value`). -/
def perfReturns (values : List ℚ) : List JRat :=
  (values.zip values.tail).map (fun p => (JRat.fin (p.2 - p.1)).div (JRat.fin p.1))

/-- Insertion step of the ascending numeric sort
(`returns.sort((a, b) => a - b)`). -/
def insertJ (a : JRat) : List JRat → List JRat
  | [] => [a]
  | b :: rest => if a.le b then a :: b :: rest else b :: insertJ a rest

/-- Ascending sort of JavaScript numbers. -/
def sortJ : List JRat → List JRat
  | [] => []
  | a :: rest => insertJ a (sortJ rest)

/-- Embeds `RiskManager.calculateCVaR`: mean of the returns strictly below the VaR
index (`Math.floor((1 − confidence) × returns.length)` of the ascending
sort), in percent; `0` below 10 history points.  When the VaR index is `0`
the sliced tail is empty and the division is `0/0`, i.e. `NaN`. -/
def calculateCVaR (confidence : ℚ) (perfHistory : List ℚ) : JRat :=
  if perfHistory.length < 10 then JRat.fin 0
  else
    let returns := perfReturns perfHistory
    let sorted := sortJ returns
    let varIndex := (⌊(1 - confidence) * (returns.length : ℚ)⌋).toNat
    let tailReturns := sorted.take varIndex
    (((JRat.sumL tailReturns).div (JRat.fin (tailReturns.length : ℚ))).mul
      (JRat.fin 100))

-- ===========================================================================
-- AlgorithmTester (src/algorithms/AlgorithmTester.ts)
-- ===========================================================================

/-- The `PerformanceMetrics` fields `evaluateTestResult` reads.  The field
names `sharpeRatio`/`winRate`/`profitFactor` of the source are kept except
that `sharpeRatio` is shortened to `sharpe`. -/
structure PerfMetricsIn where
  totalReturn : ℚ
  maxDrawdown : ℚ
  sharpe : ℚ
  winRate : ℚ
  profitFactor : ℚ
deriving Repr, DecidableEq

/-- The `RiskMetrics` fields `evaluateTestResult` reads. -/
structure RiskMetricsIn where
  volatility : ℚ
  correlation : ℚ
deriving Repr, DecidableEq

/-- Output of `evaluateTestResult` (the `recommendations` strings accompany
the issues one-for-one in the source and feed neither `passed` nor `score`;
they are not embedded). -/
structure EvalOut where
  passed : Bool
  score : ℤ
  issues : List String
deriving Repr, DecidableEq

/-- The scenario-specific step of `evaluateTestResult`: on a bad outcome an
issue is recorded, otherwise the scenario contributes its points. -/
def scenStep (bad : Bool) (pts : ℤ) (msg : String) : ℤ × List String :=
  if bad then (0, [msg]) else (pts, [])

/-- The general bonus/penalty steps of `evaluateTestResult`: a good metric
contributes points, a bad one records an issue, the middle band contributes
nothing. -/
def bonusStep (good bad : Bool) (pts : ℤ) (msg : String) : ℤ × List String :=
  if good then (pts, []) else if bad then (0, [msg]) else (0, [])

/-- The scenario-expectation block of `evaluateTestResult` (bull market needs
a 10% return, bear market must not lose more than 5%, the crash scenario must
keep drawdown at 20% or less; any other scenario contributes nothing). -/
def evalScenPart (scenarioName : String) (perf : PerfMetricsIn) :
    ℤ × List String :=
  if scenarioName == "Strong Bull Market" then
    scenStep (decide (perf.totalReturn < 10)) 20 "Low returns in bull market"
  else if scenarioName == "Strong Bear Market" then
    scenStep (decide (perf.totalReturn < -5)) 20 "Excessive losses in bear market"
  else if scenarioName == "Crash Scenario" then
    scenStep (decide (20 < perf.maxDrawdown)) 20 "Excessive drawdown during crash"
  else (0, [])

/-- Embeds `AlgorithmTester.evaluateTestResult`: scenario-specific and general
scoring, `passed` iff the accumulated score reaches 60 with at most two
issues, reported score capped at 100. -/
def evaluateTestResult (scenarioName : String) (perf : PerfMetricsIn)
    (risk : RiskMetricsIn) : EvalOut :=
  let p0 := evalScenPart scenarioName perf
  let p1 := bonusStep (decide (3/2 < perf.sharpe)) (decide (perf.sharpe < 1/2)) 15
    "Low Sharpe indicates poor risk-adjusted returns"
  let p2 := bonusStep (decide (60 < perf.winRate)) (decide (perf.winRate < 40)) 15
    "Low win rate"
  let p3 := bonusStep (decide (perf.maxDrawdown < 10)) (decide (25 < perf.maxDrawdown)) 15
    "High maximum drawdown"
  let p4 := bonusStep (decide (3/2 < perf.profitFactor)) (decide (perf.profitFactor < 1)) 15
    "Profit factor below 1.0 indicates losing strategy"
  let p5 := bonusStep (decide (risk.volatility < 15)) (decide (30 < risk.volatility)) 10
    "High portfolio volatility"
  let p6 := bonusStep (decide (risk.correlation < 1/2)) (decide (4/5 < risk.correlation)) 10
    "High portfolio correlation"
  let score := p0.1 + p1.1 + p2.1 + p3.1 + p4.1 + p5.1 + p6.1
  let issues := p0.2 ++ p1.2 ++ p2.2 ++ p3.2 ++ p4.2 ++ p5.2 ++ p6.2
  { passed := decide (60 ≤ score) && decide (issues.length ≤ 2),
    score := min 100 score,
    issues := issues }

/-- The single zero-volume observation of the Zero Volume Test of the tester
(`generateZeroVolumeData`). -/
def zeroVolumeObs : MarketData :=
  { symbol := "BTC", price := 100, volume := 0, timestamp := 1700000000000,
    change24h := 0, change1h := 0, high24h := 100, low24h := 100 }

/-- The bot configuration `createBotInstance` uses for every edge-case test. -/
def testerBotConfig : BotConfig :=
  { id := "test-bot", name := "Test Bot", allocation := 10000, stopLoss := 5,
    takeProfit := some 15, maxPositions := 5, riskLevel := .moderate,
    enabledAssets := ["BTC", "ETH", "SOL", "ADA", "DOT"] }

/-- A fresh momentum bot state (empty history and positions,
`lastRebalance = 0`). -/
def freshMomState : MomState :=
  { priceHistory := SMap.empty, positions := SMap.empty, lastRebalance := 0 }

/-- The signals the momentum bot emits on the zero-volume edge case of the tester
(one `analyzeMarket` call on the single zero-volume observation, at wall
clock `1700000000000` ms as `Date.now()` supplies during the test run). -/
def zeroVolumeMomentumSignals : List TradingSignal :=
  (momentumAnalyzeMarket (fun _ => 0) testerBotConfig 1700000000000
    freshMomState [zeroVolumeObs]).2

-- ===========================================================================
-- Concrete runs used by the counterexamples
-- ===========================================================================

/-- A valid BTC observation (positive price, non-negative volume) at time
`t`. -/
def mkObs (t : ℤ) (p v : ℚ) : MarketData :=
  { symbol := "BTC", price := p, volume := v, timestamp := t,
    change24h := 0, change1h := 0, high24h := p, low24h := p }

/-- A momentum configuration over the single symbol BTC (moderate profile,
1000 capital, one position slot, 5% stop-loss). -/
def c1Cfg : BotConfig :=
  { id := "momentum-1", name := "Momentum", allocation := 1000, stopLoss := 5,
    takeProfit := none, maxPositions := 1, riskLevel := .moderate,
    enabledAssets := ["BTC"] }

/-- A held BTC position that is 50% under water. -/
def c2Position : Position :=
  { symbol := "BTC", quantity := 10, entryPrice := 100, currentPrice := 50,
    pnl := -500, pnlPercentage := -50, timestamp := 0 }

/-- Momentum state holding `c2Position`, last rebalanced at time 0. -/
def c2State : MomState :=
  { priceHistory := [("BTC", [mkObs 0 100 1])],
    positions := [("BTC", c2Position)], lastRebalance := 0 }

/-- Embeds `analyzeMarket` 10 ms after the last rebalance, with the stop-loss
breached: the rate gate returns before the stop-loss check runs. -/
def c2Signals : List TradingSignal :=
  (momentumAnalyzeMarket (fun _ => 0) c1Cfg 10 c2State [mkObs 10 50 1]).2

/-- A staking configuration with 100 capital over the single symbol DOT. -/
def c4Cfg : BotConfig :=
  { id := "staking-1", name := "Staking", allocation := 100, stopLoss := 5,
    takeProfit := none, maxPositions := 5, riskLevel := .moderate,
    enabledAssets := ["DOT"] }

/-- An opportunity whose `maxStake` is the number `0` — a falsy value, which
`opp.maxStake || remainingCapital` replaces by the remaining capital. -/
def c4Opp : StakingOpportunity :=
  { symbol := "DOT", platform := "Kraken", apy := 12, minStake := 1,
    maxStake := some 0, lockPeriod := 0, riskLevel := .low,
    liquidity := .high, compoundFrequency := .daily, fees := 0 }

/-- The allocations the staking evaluator produces for `c4Opp` alone. -/
def c4Allocations : List StakingAllocation :=
  calculateOptimalAllocations c4Cfg [] [c4Opp] []

/-- The same opportunity with an honest (nonzero) maximum stake of 50. -/
def c4OppCapped : StakingOpportunity := { c4Opp with maxStake := some 50 }

/-- A proposed BUY signal carrying a quantity (used to exercise
`validateSignal`). -/
def c3Signal : TradingSignal :=
  { action := .buy, symbol := "BTC", confidence := 70, price := 2,
    quantity := some 5, reason := "proposed entry", timestamp := 0,
    riskLevel := .medium }

/-- Risk limits with a 10% position-size cap. -/
def c3Limits : RiskLimits :=
  { maxPositionSize := 10, maxTotalExposure := 80, maxDrawdown := 15,
    maxCorrelation := 7/10, maxVolatility := 5, minLiquidity := 0,
    maxLeverage := 1, emergencyStopLoss := 25 }

theorem SMap.lookup_set_self {α : Type} (m : SMap α) (k : String) (v : α) :
    (m.set k v).lookup k = some v := by
  induction m with
  | nil => simp [SMap.set, SMap.lookup]
  | cons hd tl ih =>
      obtain ⟨k', v'⟩ := hd
      by_cases h : k' = k <;> simp [SMap.set, SMap.lookup, h, ih]

theorem SMap.lookup_erase_self {α : Type} (m : SMap α) (k : String) :
    (m.erase k).lookup k = none := by
  induction m with
  | nil => simp [SMap.erase, SMap.lookup]
  | cons hd tl ih =>
      obtain ⟨k', v'⟩ := hd
      by_cases h : k' = k <;> simp [SMap.erase, SMap.lookup, h, ih]

-- ===========================================================================
-- C7: a full BUY/SELL round trip closes the position
-- ===========================================================================

/-- C7: applying an executed BUY of quantity `q` at price `p` and then an
executed SELL of the same `q` at `p` (with `q > 0`, `p > 0`) to a ledger
holding no position for the symbol leaves no position for that symbol, for
the momentum, DCA and channel-index position ledgers alike. -/
theorem roundTrip_closes_position (now : ℤ) (cfg : BotConfig)
    (sched : DCASchedule) (momPos : SMap Position) (dcaPos : SMap DCAPosition)
    (cciPos : SMap CCIPosition) (sym : String) (q p : ℚ)
    (hq : 0 < q) (hp : 0 < p)
    (hm : momPos.lookup sym = none) (hd : dcaPos.lookup sym = none)
    (hc : cciPos.lookup sym = none) :
    (momentumUpdatePosition now
        (momentumUpdatePosition now momPos sym .buy q p) sym .sell q p).lookup
        sym = none
    ∧ (dcaUpdatePosition sched now
        (dcaUpdatePosition sched now dcaPos sym .buy q p) sym .sell q p).lookup
        sym = none
    ∧ (cciUpdatePosition cfg now
        (cciUpdatePosition cfg now cciPos sym .buy q p) sym .sell q p).lookup
        sym = none := by
  refine ⟨?_, ?_, ?_⟩
  · simp only [momentumUpdatePosition, hm, SMap.lookup_set_self]
    norm_num [SMap.lookup_erase_self]
  · simp only [dcaUpdatePosition, hd, SMap.lookup_set_self]
    simp [SMap.lookup_erase_self]
  · simp only [cciUpdatePosition, hc, SMap.lookup_set_self]
    norm_num [SMap.lookup_erase_self]

/-- Witness for C7 at `q = 2`, `p = 3` on empty ledgers. -/
theorem roundTrip_closes_position_witness :
    (momentumUpdatePosition 0
        (momentumUpdatePosition 0 SMap.empty "BTC" .buy 2 3) "BTC" .sell 2 3).lookup
        "BTC" = none
    ∧ (dcaUpdatePosition ⟨.daily, 24, 100, 0, none, none⟩ 0
        (dcaUpdatePosition ⟨.daily, 24, 100, 0, none, none⟩ 0 SMap.empty "BTC"
          .buy 2 3) "BTC" .sell 2 3).lookup "BTC" = none
    ∧ (cciUpdatePosition c1Cfg 0
        (cciUpdatePosition c1Cfg 0 SMap.empty "BTC" .buy 2 3) "BTC"
          .sell 2 3).lookup "BTC" = none :=
  roundTrip_closes_position 0 c1Cfg ⟨.daily, 24, 100, 0, none, none⟩
    SMap.empty SMap.empty SMap.empty "BTC" 2 3 (by norm_num) (by norm_num)
    rfl rfl rfl

-- ===========================================================================
-- C8: the channel index is 0 on a perfectly flat series
-- ===========================================================================

/-- C8: on a perfectly flat series (every observation has the same
`high = low = close`), once at least `period` observations exist the
channel-index value is `0`: the mean absolute deviation is `0` and the
zero-denominator guard returns `0` instead of dividing. -/
theorem computeCCI_flat_zero (period n : ℕ) (d : CCIData)
    (hper : 0 < period) (hn : period ≤ n)
    (hflat : d.high = d.low ∧ d.low = d.close) :
    computeCCI period (List.replicate n d) = 0 := by
  have hlen : (List.replicate n d).length - period = n - period := by
    simp
  have hrepl : takeLast period (List.replicate n d) = List.replicate period d := by
    rw [takeLast, hlen, List.drop_replicate]
    congr 1
    omega
  have hpq : ((period : ℚ)) ≠ 0 := by exact_mod_cast hper.ne'
  simp only [computeCCI, hrepl, List.map_replicate, List.sum_replicate,
    nsmul_eq_mul]
  simp only [mul_div_cancel_left₀ _ hpq]
  simp

/-- Witness for C8 at `period = 3`, `n = 5`, a flat observation at 7. -/
theorem computeCCI_flat_zero_witness :
    computeCCI 3 (List.replicate 5
      { symbol := "BTC", timestamp := 0, price := 7, high := 7, low := 7,
        close := 7, volume := 1, cci := 0, cciMA := 0,
        cciSignal := .neutral, trend := .sideways, strength := 0 }) = 0 :=
  computeCCI_flat_zero 3 5 _ (by norm_num) (by norm_num) ⟨rfl, rfl⟩

-- ===========================================================================
-- C10: updateRiskLimits changes exactly the named fields
-- ===========================================================================

/-- C10: `updateRiskLimits` with a partial limits object replaces exactly the
fields present in the argument and keeps every absent field unchanged, as
observed through `getRiskLimits`. -/
theorem updateRiskLimits_frame (l : RiskLimits) (u : PartialRiskLimits) :
    ((∀ v, u.maxPositionSize = some v →
        (getRiskLimits (updateRiskLimits l u)).maxPositionSize = v) ∧
      (u.maxPositionSize = none →
        (getRiskLimits (updateRiskLimits l u)).maxPositionSize =
          l.maxPositionSize)) ∧
    ((∀ v, u.maxTotalExposure = some v →
        (getRiskLimits (updateRiskLimits l u)).maxTotalExposure = v) ∧
      (u.maxTotalExposure = none →
        (getRiskLimits (updateRiskLimits l u)).maxTotalExposure =
          l.maxTotalExposure)) ∧
    ((∀ v, u.maxDrawdown = some v →
        (getRiskLimits (updateRiskLimits l u)).maxDrawdown = v) ∧
      (u.maxDrawdown = none →
        (getRiskLimits (updateRiskLimits l u)).maxDrawdown = l.maxDrawdown)) ∧
    ((∀ v, u.maxCorrelation = some v →
        (getRiskLimits (updateRiskLimits l u)).maxCorrelation = v) ∧
      (u.maxCorrelation = none →
        (getRiskLimits (updateRiskLimits l u)).maxCorrelation =
          l.maxCorrelation)) ∧
    ((∀ v, u.maxVolatility = some v →
        (getRiskLimits (updateRiskLimits l u)).maxVolatility = v) ∧
      (u.maxVolatility = none →
        (getRiskLimits (updateRiskLimits l u)).maxVolatility =
          l.maxVolatility)) ∧
    ((∀ v, u.minLiquidity = some v →
        (getRiskLimits (updateRiskLimits l u)).minLiquidity = v) ∧
      (u.minLiquidity = none →
        (getRiskLimits (updateRiskLimits l u)).minLiquidity =
          l.minLiquidity)) ∧
    ((∀ v, u.maxLeverage = some v →
        (getRiskLimits (updateRiskLimits l u)).maxLeverage = v) ∧
      (u.maxLeverage = none →
        (getRiskLimits (updateRiskLimits l u)).maxLeverage = l.maxLeverage)) ∧
    ((∀ v, u.emergencyStopLoss = some v →
        (getRiskLimits (updateRiskLimits l u)).emergencyStopLoss = v) ∧
      (u.emergencyStopLoss = none →
        (getRiskLimits (updateRiskLimits l u)).emergencyStopLoss =
          l.emergencyStopLoss)) := by
  refine ⟨⟨?_, ?_⟩, ⟨?_, ?_⟩, ⟨?_, ?_⟩, ⟨?_, ?_⟩, ⟨?_, ?_⟩, ⟨?_, ?_⟩,
    ⟨?_, ?_⟩, ⟨?_, ?_⟩⟩ <;> intro h <;>
    simp_all [updateRiskLimits, getRiskLimits]

/-- Witness for C10: a partial update carrying two fields replaces those two
and keeps an absent one. -/
theorem updateRiskLimits_frame_witness :
    (getRiskLimits (updateRiskLimits ⟨10, 80, 15, 7/10, 5, 100000, 1, 25⟩
      { maxPositionSize := some 42, maxDrawdown := some 7 })).maxPositionSize
        = 42
    ∧ (getRiskLimits (updateRiskLimits ⟨10, 80, 15, 7/10, 5, 100000, 1, 25⟩
      { maxPositionSize := some 42, maxDrawdown := some 7 })).maxTotalExposure
        = 80 :=
  ⟨(updateRiskLimits_frame ⟨10, 80, 15, 7/10, 5, 100000, 1, 25⟩
      { maxPositionSize := some 42, maxDrawdown := some 7 }).1.1 42 rfl,
   (updateRiskLimits_frame ⟨10, 80, 15, 7/10, 5, 100000, 1, 25⟩
      { maxPositionSize := some 42, maxDrawdown := some 7 }).2.1.2 rfl⟩

-- ===========================================================================
-- C9: passed iff score ≥ 60 and at most two issues
-- ===========================================================================

theorem evalAssemble_spec (p0 p1 p2 p3 p4 p5 p6 : ℤ × List String)
    (h0 : 0 ≤ p0.1 ∧ p0.1 ≤ 20) (h1 : 0 ≤ p1.1 ∧ p1.1 ≤ 15)
    (h2 : 0 ≤ p2.1 ∧ p2.1 ≤ 15) (h3 : 0 ≤ p3.1 ∧ p3.1 ≤ 15)
    (h4 : 0 ≤ p4.1 ∧ p4.1 ≤ 15) (h5 : 0 ≤ p5.1 ∧ p5.1 ≤ 10)
    (h6 : 0 ≤ p6.1 ∧ p6.1 ≤ 10) :
    ((decide (60 ≤ p0.1 + p1.1 + p2.1 + p3.1 + p4.1 + p5.1 + p6.1) &&
        decide ((p0.2 ++ p1.2 ++ p2.2 ++ p3.2 ++ p4.2 ++ p5.2 ++
          p6.2).length ≤ 2)) = true ↔
      60 ≤ min 100 (p0.1 + p1.1 + p2.1 + p3.1 + p4.1 + p5.1 + p6.1) ∧
        (p0.2 ++ p1.2 ++ p2.2 ++ p3.2 ++ p4.2 ++ p5.2 ++ p6.2).length ≤ 2) ∧
    min 100 (p0.1 + p1.1 + p2.1 + p3.1 + p4.1 + p5.1 + p6.1) ≤ 100 := by
  have hS : p0.1 + p1.1 + p2.1 + p3.1 + p4.1 + p5.1 + p6.1 ≤ 100 := by
    obtain ⟨_, b0⟩ := h0
    obtain ⟨_, b1⟩ := h1
    obtain ⟨_, b2⟩ := h2
    obtain ⟨_, b3⟩ := h3
    obtain ⟨_, b4⟩ := h4
    obtain ⟨_, b5⟩ := h5
    obtain ⟨_, b6⟩ := h6
    omega
  rw [min_eq_right hS]
  constructor
  · simp [Bool.and_eq_true, decide_eq_true_iff]
  · exact hS

/-- C9: a backtest evaluation `passed` iff its reported score is at least 60
and at most two issues were recorded, and the reported score is capped at
100 (the accumulated score never exceeds 100, so the cap is exact). -/
theorem evaluateTestResult_passed_iff (name : String) (perf : PerfMetricsIn)
    (risk : RiskMetricsIn) :
    ((evaluateTestResult name perf risk).passed = true ↔
      60 ≤ (evaluateTestResult name perf risk).score ∧
        (evaluateTestResult name perf risk).issues.length ≤ 2)
    ∧ (evaluateTestResult name perf risk).score ≤ 100 := by
  have hsc : 0 ≤ (evalScenPart name perf).1 ∧ (evalScenPart name perf).1 ≤ 20 := by
    unfold evalScenPart scenStep
    split_ifs <;> norm_num
  have hb : ∀ (g b : Bool) (pts : ℤ) (msg : String), 0 ≤ pts →
      0 ≤ (bonusStep g b pts msg).1 ∧ (bonusStep g b pts msg).1 ≤ pts := by
    intro g b pts msg h
    unfold bonusStep
    split_ifs <;> omega
  exact evalAssemble_spec (evalScenPart name perf)
    (bonusStep (decide (3/2 < perf.sharpe)) (decide (perf.sharpe < 1/2)) 15
      "Low Sharpe indicates poor risk-adjusted returns")
    (bonusStep (decide (60 < perf.winRate)) (decide (perf.winRate < 40)) 15
      "Low win rate")
    (bonusStep (decide (perf.maxDrawdown < 10)) (decide (25 < perf.maxDrawdown)) 15
      "High maximum drawdown")
    (bonusStep (decide (3/2 < perf.profitFactor)) (decide (perf.profitFactor < 1)) 15
      "Profit factor below 1.0 indicates losing strategy")
    (bonusStep (decide (risk.volatility < 15)) (decide (30 < risk.volatility)) 10
      "High portfolio volatility")
    (bonusStep (decide (risk.correlation < 1/2)) (decide (4/5 < risk.correlation)) 10
      "High portfolio correlation")
    hsc (hb _ _ 15 _ (by norm_num)) (hb _ _ 15 _ (by norm_num))
    (hb _ _ 15 _ (by norm_num)) (hb _ _ 15 _ (by norm_num))
    (hb _ _ 10 _ (by norm_num)) (hb _ _ 10 _ (by norm_num))

-- ===========================================================================
-- C5: CVaR95 on a 10-point history is NaN (code bug)
-- ===========================================================================

/-- C5 (failing input): on a performance history of exactly 10 points the VaR
index `⌊0.05 × 9⌋` is `0`, the sliced tail is empty, and `calculateCVaR`
divides `0/0` — `NaN` — contradicting the claim (and the division-by-zero
guard the specification requires) that CVaR95 is finite for every history
of at least 10 points. -/
theorem calculateCVaR_ten_points_nan :
    calculateCVaR (95/100)
      [100, 100, 100, 100, 100, 100, 100, 100, 100, 100] = JRat.nan := by
  norm_num [calculateCVaR, perfReturns, sortJ, insertJ, JRat.sumL, JRat.div,
    JRat.mul, JRat.le, JRat.add]

-- ===========================================================================
-- C6: zero-volume data still produces a signal (code bug)
-- ===========================================================================

/-- C6 (failing input): on the zero-volume edge case of the tester (a single
observation with `volume = 0`, `price = 100`, under the standard tester
configuration) the momentum evaluator emits a BUY signal with confidence 60 —
the Zero Volume Test of the tester itself expects an empty signal list from
every strategy and therefore fails. -/
theorem momentum_zero_volume_emits_buy :
    zeroVolumeMomentumSignals =
      [{ action := .buy, symbol := "BTC", confidence := 60, price := 100,
         quantity := some 20, reason := "High momentum score",
         timestamp := 1700000000000, riskLevel := .medium }] := by
  norm_num [zeroVolumeMomentumSignals, momentumAnalyzeMarket,
    momentumUpdateHistory, freshMomState, testerBotConfig, zeroVolumeObs,
    SMap.empty, SMap.set, SMap.lookup, SMap.entries, calculateMomentumScores,
    sortByScoreDesc, insertScoreDesc, generateRebalancingSignals,
    checkStopLossTriggers, checkTakeProfitTriggers, truthyQ,
    List.filterMap_cons, min_def]

-- ===========================================================================
-- C4: staking allocation bounds
-- ===========================================================================

theorem allocLoop_sum_le (T : ℚ) :
    ∀ (l : List (StakingOpportunity × ℚ)) (r : ℚ),
      ((allocLoop T r l).map (·.amount)).sum ≤ max r 0 := by
  intro l
  induction l with
  | nil => intro r; simp [allocLoop]
  | cons hd tl ih =>
      intro r
      obtain ⟨opp, sc⟩ := hd
      simp only [allocLoop]
      split_ifs with h1 h2
      · exact ih r
      · simp only [List.map_cons, List.sum_cons]
        have hle : min (min r (jsOrQ opp.maxStake r)) (T * (3/10)) ≤ r :=
          le_trans (min_le_left _ _) (min_le_left _ _)
        have hrec := ih (r - min (min r (jsOrQ opp.maxStake r)) (T * (3/10)))
        have h0 : (0:ℚ) ≤ r - min (min r (jsOrQ opp.maxStake r)) (T * (3/10)) := by
          linarith
        rw [max_eq_left h0] at hrec
        have : (0:ℚ) ≤ r := le_of_lt (lt_of_not_le h1)
        calc min (min r (jsOrQ opp.maxStake r)) (T * (3/10)) +
              ((allocLoop T (r - min (min r (jsOrQ opp.maxStake r)) (T * (3/10)))
                tl).map (·.amount)).sum
            ≤ min (min r (jsOrQ opp.maxStake r)) (T * (3/10)) +
                (r - min (min r (jsOrQ opp.maxStake r)) (T * (3/10))) := by
              linarith
          _ = r := by ring
          _ ≤ max r 0 := le_max_left _ _
      · exact ih r

theorem allocLoop_mem (T : ℚ) :
    ∀ (l : List (StakingOpportunity × ℚ)) (r : ℚ) (a : StakingAllocation),
      a ∈ allocLoop T r l →
      ∃ opp sc, (opp, sc) ∈ l ∧ a.symbol = opp.symbol ∧
        a.amount ≤ T * (3/10) ∧ opp.minStake ≤ a.amount ∧
        (∀ m, opp.maxStake = some m → m ≠ 0 → a.amount ≤ m) ∧
        a.priority = round sc := by
  intro l
  induction l with
  | nil => intro r a h; simp [allocLoop] at h
  | cons hd tl ih =>
      intro r a h
      obtain ⟨opp, sc⟩ := hd
      simp only [allocLoop] at h
      split_ifs at h with h1 h2
      · obtain ⟨o, s, hmem, rest⟩ := ih r a h
        exact ⟨o, s, List.mem_cons_of_mem _ hmem, rest⟩
      · rcases List.mem_cons.mp h with rfl | h'
        · refine ⟨opp, sc, List.mem_cons_self _ _, rfl, ?_, h2, ?_, rfl⟩
          · exact min_le_right _ _
          · intro m hm hm0
            have hjs : jsOrQ opp.maxStake r = m := by
              simp [jsOrQ, hm, hm0]
            calc min (min r (jsOrQ opp.maxStake r)) (T * (3/10))
                ≤ min r (jsOrQ opp.maxStake r) := min_le_left _ _
              _ ≤ jsOrQ opp.maxStake r := min_le_right _ _
              _ = m := hjs
        · obtain ⟨o, s, hmem, rest⟩ :=
            ih (r - min (min r (jsOrQ opp.maxStake r)) (T * (3/10))) a h'
          exact ⟨o, s, List.mem_cons_of_mem _ hmem, rest⟩
      · obtain ⟨o, s, hmem, rest⟩ := ih r a h
        exact ⟨o, s, List.mem_cons_of_mem _ hmem, rest⟩

theorem mem_insertOppDesc (x a : StakingOpportunity × ℚ)
    (l : List (StakingOpportunity × ℚ)) :
    x ∈ insertOppDesc a l → x = a ∨ x ∈ l := by
  induction l with
  | nil => intro h; simp [insertOppDesc] at h; exact Or.inl h
  | cons b rest ih =>
      intro h
      simp only [insertOppDesc] at h
      split_ifs at h
      · rcases List.mem_cons.mp h with rfl | h' <;> [exact Or.inl rfl; exact Or.inr h']
      · rcases List.mem_cons.mp h with rfl | h'
        · exact Or.inr (List.mem_cons_self _ _)
        · rcases ih h' with rfl | h'' <;>
            [exact Or.inl rfl; exact Or.inr (List.mem_cons_of_mem _ h'')]

theorem mem_sortOppsDesc (x : StakingOpportunity × ℚ)
    (l : List (StakingOpportunity × ℚ)) :
    x ∈ sortOppsDesc l → x ∈ l := by
  induction l with
  | nil => intro h; simpa [sortOppsDesc] using h
  | cons a rest ih =>
      intro h
      rcases mem_insertOppDesc x a (sortOppsDesc rest) h with rfl | h'
      · exact List.mem_cons_self _ _
      · exact List.mem_cons_of_mem _ (ih h')

/-- C4 (amended): for a total capital allocation ≥ 0 and current staked
amounts ≥ 0, the greedy staking allocations sum to at most the total capital,
each single allocation is at most 30% of the total capital, each is at least
the minimum stake of its opportunity, and each is at most the maximum
stake of its opportunity whenever that maximum is a nonzero number (a `maxStake` of `0`
is falsy and is treated by the source exactly like an absent one). -/
theorem staking_allocations_bounded (cfg : BotConfig)
    (positions : List StakingPosition) (opps : List StakingOpportunity)
    (md : List MarketData) (hT : 0 ≤ cfg.allocation)
    (hpos : ∀ p ∈ positions, 0 ≤ p.stakedAmount) :
    (((calculateOptimalAllocations cfg positions opps md).map (·.amount)).sum
        ≤ cfg.allocation)
    ∧ ∀ a ∈ calculateOptimalAllocations cfg positions opps md,
        a.amount ≤ cfg.allocation * (3/10) ∧
        ∃ opp ∈ opps, a.symbol = opp.symbol ∧ opp.minStake ≤ a.amount ∧
          ∀ m, opp.maxStake = some m → m ≠ 0 → a.amount ≤ m := by
  have hcs : 0 ≤ (positions.map (·.stakedAmount)).sum :=
    List.sum_nonneg (by simpa using hpos)
  constructor
  · have h := allocLoop_sum_le cfg.allocation
      (sortOppsDesc
        ((opps.filter (fun o => cfg.enabledAssets.contains o.symbol)).map
          (fun o => (o, calculateStakingScore o md))))
      (cfg.allocation - (positions.map (·.stakedAmount)).sum)
    refine le_trans h (max_le (by linarith) hT)
  · intro a ha
    obtain ⟨opp, sc, hmem, hsym, hle, hmin, hmax, -⟩ :=
      allocLoop_mem cfg.allocation _ _ a ha
    have hmem' := mem_sortOppsDesc _ _ hmem
    obtain ⟨o, ho, heq⟩ := List.mem_map.mp hmem'
    have ho1 : o = opp := congrArg Prod.fst heq
    have ho2 : opp ∈ opps.filter (fun o => cfg.enabledAssets.contains o.symbol) :=
      ho1 ▸ ho
    exact ⟨hle, opp, List.mem_of_mem_filter ho2, hsym, hmin, hmax⟩

/-- Witness for C4 at a concrete configuration: one opportunity with
`maxStake = 50`, capital 100, no existing positions. -/
theorem staking_allocations_bounded_witness :
    ((calculateOptimalAllocations c4Cfg [] [c4OppCapped] []).map
      (·.amount)).sum ≤ c4Cfg.allocation :=
  (staking_allocations_bounded c4Cfg [] [c4OppCapped] []
    (by norm_num [c4Cfg]) (by intro p hp; simp at hp)).1

/-- C4 (counterexample): an opportunity whose `maxStake` is the number `0`
(a falsy value) is allocated 30 — strictly more than its stated maximum
stake — because `opp.maxStake || remainingCapital` discards the zero. -/
theorem staking_allocation_exceeds_zero_maxStake :
    c4Allocations = [{ symbol := "DOT", platform := "Kraken", amount := 30,
                       apy := 12, priority := 174 }]
    ∧ c4Opp.maxStake = some 0 ∧ ¬((30:ℚ) ≤ 0) := by
  refine ⟨?_, rfl, by norm_num⟩
  norm_num [c4Allocations, calculateOptimalAllocations, c4Cfg, c4Opp,
    sortOppsDesc, insertOppDesc, allocLoop, jsOrQ, calculateStakingScore,
    round_eq, Int.floor_eq_iff]


-- ===========================================================================
-- C2: stop-loss checks run only on rebalance cycles
-- ===========================================================================

theorem momentumAnalyzeMarket_of_lt (sq : ℚ → ℚ) (cfg : BotConfig) (now : ℤ)
    (st : MomState) (md : List MarketData)
    (h : now - st.lastRebalance < 15 * 60 * 1000) :
    momentumAnalyzeMarket sq cfg now st md =
      ({ st with priceHistory := momentumUpdateHistory st.priceHistory md },
        []) := by
  simp only [momentumAnalyzeMarket, if_pos h]

/-- C2 (amended): the momentum evaluator runs its stop-loss (and take-profit)
checks only on rebalance cycles.  When at least 15 minutes have elapsed since
the previous rebalance, every held position whose absolute PnL percentage
reaches the configured stop-loss gets a SELL signal (confidence 100) among
the returned signals; when less than 15 minutes have elapsed,
`analyzeMarket` returns no signals at all, so the stop-loss check is skipped
for that cycle. -/
theorem momentum_stopLoss_gated (sq : ℚ → ℚ) (cfg : BotConfig) (now : ℤ)
    (st : MomState) (md : List MarketData) :
    (now - st.lastRebalance < 15 * 60 * 1000 →
      (momentumAnalyzeMarket sq cfg now st md).2 = [])
    ∧ (15 * 60 * 1000 ≤ now - st.lastRebalance →
        ∀ sym pos, (sym, pos) ∈ st.positions.entries →
          cfg.stopLoss ≤ |pos.pnlPercentage| →
          ∃ s ∈ (momentumAnalyzeMarket sq cfg now st md).2,
            s.action = .sell ∧ s.symbol = sym ∧ s.confidence = 100) := by
  constructor
  · intro h
    rw [momentumAnalyzeMarket_of_lt sq cfg now st md h]
  · intro h sym pos hmem hsl
    have hgate : ¬(now - st.lastRebalance < 15 * 60 * 1000) := not_lt.mpr h
    refine ⟨{ action := .sell, symbol := sym, confidence := 100,
              price := pos.currentPrice, quantity := some pos.quantity,
              reason := "Stop-loss triggered", timestamp := now,
              riskLevel := .high }, ?_, rfl, rfl, rfl⟩
    simp only [momentumAnalyzeMarket, if_neg hgate]
    refine List.mem_append.mpr (Or.inl (List.mem_append.mpr (Or.inr ?_)))
    simp only [checkStopLossTriggers, List.mem_filterMap]
    exact ⟨(sym, pos), hmem, by simp [hsl]⟩

/-- Witness for C2 (applied 100 ms after the last rebalance: the rate gate
returns the empty signal list). -/
theorem momentum_stopLoss_gated_witness :
    (momentumAnalyzeMarket (fun _ => 0) c1Cfg 100 c2State []).2 = [] :=
  (momentum_stopLoss_gated (fun _ => 0) c1Cfg 100 c2State []).1
    (by norm_num [c2State])

/-- C2 (counterexample): 10 ms after the previous rebalance, a position 50%
under water against a 5% stop-loss produces no signal at all — the claim
that stop-loss checks run on every cycle regardless of rebalance timing is
false on the code. -/
theorem momentum_skips_stopLoss_within_interval :
    c2Signals = [] ∧ c1Cfg.stopLoss ≤ |c2Position.pnlPercentage| := by
  constructor
  · have hg := momentumAnalyzeMarket_of_lt (fun _ => 0) c1Cfg 10 c2State
      [mkObs 10 50 1] (by norm_num [c2State])
    simp [c2Signals, hg]
  · norm_num [c1Cfg, c2Position]

-- ===========================================================================
-- Shared membership lemmas for the evaluator pipelines
-- ===========================================================================

theorem manageExistingPositions_symbol (positions : SMap StakingPosition)
    (md : List MarketData) (now : ℤ) :
    ∀ kv ∈ SMap.entries (manageExistingPositions positions md now).1,
      ∃ kv2 ∈ SMap.entries positions, kv.2.symbol = kv2.2.symbol := by
  intro kv hkv
  simp only [manageExistingPositions, SMap.entries, List.mem_map] at hkv
  obtain ⟨x, ⟨kv2, hkv2, hx⟩, hkv1⟩ := hkv
  refine ⟨kv2, hkv2, ?_⟩
  rw [← hkv1, ← hx]
  split_ifs <;> rfl

theorem JRat.add_fin_or_nan {a b : JRat}
    (ha : a = JRat.nan ∨ ∃ x, a = JRat.fin x)
    (hb : b = JRat.nan ∨ ∃ y, b = JRat.fin y) :
    a.add b = JRat.nan ∨ ∃ z, a.add b = JRat.fin z := by
  rcases ha with rfl | ⟨x, rfl⟩ <;> rcases hb with rfl | ⟨y, rfl⟩
  · exact Or.inl rfl
  · exact Or.inl rfl
  · exact Or.inl rfl
  · exact Or.inr ⟨x + y, rfl⟩

theorem calculatePortfolioValue_cases (positions : List Position)
    (md : List MarketData) :
    calculatePortfolioValue positions md = JRat.nan ∨
      ∃ v, calculatePortfolioValue positions md = JRat.fin v := by
  unfold calculatePortfolioValue
  generalize hacc : (JRat.fin 0 : JRat) = acc
  have hacc' : acc = JRat.nan ∨ ∃ v, acc = JRat.fin v := Or.inr ⟨0, hacc.symm⟩
  clear hacc
  induction positions generalizing acc with
  | nil => simpa using hacc'
  | cons p rest ih =>
      simp only [List.foldl_cons]
      apply ih
      refine JRat.add_fin_or_nan hacc' ?_
      split
      · exact Or.inr ⟨_, rfl⟩
      · exact Or.inl rfl

theorem getMarketConditionAdjustment_adjusted_none (mc : MarketCondition)
    (signal : TradingSignal) :
    (getMarketConditionAdjustment mc signal).adjustedQuantity = none := by
  unfold getMarketConditionAdjustment
  split_ifs <;> rfl

/-- C3: for every signal carrying a quantity `q ≥ 0` at a price `> 0`, under
a non-negative position-size limit, `validateSignal` either returns no
`adjustedQuantity` or returns one strictly smaller than `q`; and whenever the
position-size check fires, the result is an approval carrying an adjusted
quantity (a resize, not a rejection). -/
theorem validateSignal_never_increases (jsqrt : JRat → JRat)
    (limits : RiskLimits) (perfHistory : List ℚ) (signal : TradingSignal)
    (positions : List Position) (marketData : List MarketData) (q : ℚ)
    (hq : signal.quantity = some q) (hq0 : 0 ≤ q) (hp : 0 < signal.price)
    (hmps : 0 ≤ limits.maxPositionSize) :
    ((validateSignal jsqrt limits perfHistory signal positions
        marketData).adjustedQuantity = none ∨
      ∃ a : ℚ, (validateSignal jsqrt limits perfHistory signal positions
        marketData).adjustedQuantity = some (JRat.fin a) ∧ a < q)
    ∧ (((((JRat.ofo signal.quantity).mul (JRat.fin signal.price)).div
          (calculatePortfolioValue positions marketData)).mul
            (JRat.fin 100)).gt (JRat.fin limits.maxPositionSize) = true →
        (validateSignal jsqrt limits perfHistory signal positions
          marketData).approved = true ∧
        (validateSignal jsqrt limits perfHistory signal positions
          marketData).adjustedQuantity ≠ none) := by
  have hpne : signal.price ≠ 0 := ne_of_gt hp
  by_cases hcond : ((((JRat.ofo signal.quantity).mul
      (JRat.fin signal.price)).div
        (calculatePortfolioValue positions marketData)).mul
          (JRat.fin 100)).gt (JRat.fin limits.maxPositionSize) = true
  · -- the position-size check fires: the result is the resize record
    have hres : validateSignal jsqrt limits perfHistory signal positions
        marketData =
        { approved := true,
          adjustedQuantity := some
            ((((JRat.fin limits.maxPositionSize).div (JRat.fin 100)).mul
              (calculatePortfolioValue positions marketData)).div
                (JRat.fin signal.price)),
          reason := "Position size reduced to the limit",
          riskLevel := .high } := by
      unfold validateSignal
      rw [if_pos hcond]
    constructor
    · right
      rw [hres]
      rw [hq] at hcond
      rcases calculatePortfolioValue_cases positions marketData with hnan |
        ⟨v, hfin⟩
      · rw [hnan] at hcond
        simp [JRat.ofo, JRat.mul, JRat.div, JRat.gt, JRat.lt] at hcond
      · rw [hfin] at hcond ⊢
        by_cases hv : v = 0
        · subst hv
          by_cases hqz : q = 0
          · exfalso
            subst hqz
            simp [JRat.ofo, JRat.mul, JRat.div, JRat.gt, JRat.lt] at hcond
          · have hq' : 0 < q := lt_of_le_of_ne hq0 (Ne.symm hqz)
            refine ⟨limits.maxPositionSize / 100 * 0 / signal.price, ?_, ?_⟩
            · simp [JRat.div, JRat.mul, hpne]
            · simpa using hq'
        · have hdiv : (JRat.fin (q * signal.price)).div (JRat.fin v) =
              JRat.fin (q * signal.price / v) := by
            simp [JRat.div, hv]
          rw [show (JRat.ofo (some q)).mul (JRat.fin signal.price) =
              JRat.fin (q * signal.price) from rfl, hdiv] at hcond
          simp only [JRat.mul, JRat.gt, JRat.lt, decide_eq_true_eq] at hcond
          -- hcond : maxPositionSize < q * signal.price / v * 100
          have hvpos : 0 < v := by
            rcases lt_trichotomy v 0 with hneg | hz | hpos
            · exfalso
              have hqp : 0 ≤ q * signal.price := mul_nonneg hq0 (le_of_lt hp)
              have : q * signal.price / v ≤ 0 := div_nonpos_of_nonneg_of_nonpos hqp (le_of_lt hneg)
              nlinarith
            · exact absurd hz hv
            · exact hpos
          refine ⟨limits.maxPositionSize / 100 * v / signal.price, ?_, ?_⟩
          · simp [JRat.div, JRat.mul, hpne]
          · rw [div_lt_iff₀ hp, div_mul_eq_mul_div, div_lt_iff₀ (by norm_num : (0:ℚ) < 100)]
            have h1 : limits.maxPositionSize * v < q * signal.price * 100 := by
              have := (lt_div_iff₀ hvpos).mp
                (by rw [div_mul_eq_mul_div] at hcond; exact hcond)
              linarith
            linarith
    · intro _
      rw [hres]
      exact ⟨rfl, by simp⟩
  · -- the position-size check does not fire: no branch adjusts the quantity
    have hnone : (validateSignal jsqrt limits perfHistory signal positions
        marketData).adjustedQuantity = none := by
      simp only [validateSignal]
      rw [if_neg hcond]
      split_ifs <;>
        first
          | rfl
          | exact getMarketConditionAdjustment_adjusted_none _ _
          | (split <;> first | rfl | (split <;> rfl))
    exact ⟨Or.inl hnone, fun hc => absurd hc hcond⟩

/-- Witness for C3: an empty portfolio (portfolio value 0) with a BUY for 5
units at price 2 under a 10% position-size cap triggers the position-size
branch, and the result is an approved resize. -/
theorem validateSignal_never_increases_witness :
    (validateSignal (fun _ => JRat.nan) c3Limits [] c3Signal []
      []).approved = true ∧
    (validateSignal (fun _ => JRat.nan) c3Limits [] c3Signal []
      []).adjustedQuantity ≠ none :=
  (validateSignal_never_increases (fun _ => JRat.nan) c3Limits [] c3Signal
     [] [] 5 rfl (by norm_num) (by norm_num [c3Signal])
     (by norm_num [c3Limits])).2
    (by norm_num [c3Signal, c3Limits, calculatePortfolioValue, JRat.ofo,
      JRat.mul, JRat.div, JRat.gt, JRat.lt])
